import Mathlib

/-!
Verification of the indexed-tilemap renderer (`src/main.rs`).

The program is shallowly embedded: the pure data-producing functions
(`generate_worlddata`, `gen_vertices`, the `quad_indices` buffer, the
per-frame draw configuration built inside the event-loop closure) are
translated into executable Lean definitions, with machine floats that the
source only ever uses at exactly representable dyadic values (±0.5, 1.0)
modelled over `ℚ`, and `u8` bytes modelled as `Nat` (all byte values the
program writes are 0 or 1, far from wrap-around).  Library code the
program calls but that is not part of the repository (the `image` crate's
PNG decoder, glium's `RawImage2d::from_raw_rgb_reversed`) is modelled from
the specification where needed; those definitions say so in their doc
comments.
-/

namespace OpenglTilemap

/-! ## WorldEncoder: `generate_worlddata` -/

/-- `const BYTES_PER_RGB_VALUE: usize = 3` in `generate_worlddata`. -/
def BYTES_PER_RGB_VALUE : Nat := 3

/-- `const WORLD_WIDTH: u32 = 1000`. -/
def WORLD_WIDTH : Nat := 1000

/-- `const WORLD_HEIGHT: u32 = 1000`. -/
def WORLD_HEIGHT : Nat := 1000

/-- `type Xy = (u8, u8)`: one tile-index pair. -/
abbrev Xy := Nat × Nat

/-- `const BOTTOM_LEFT: Xy = (0, 0)`. -/
def BOTTOM_LEFT : Xy := (0, 0)

/-- `const BOTTOM_RIGHT: Xy = (0, 1)`. -/
def BOTTOM_RIGHT : Xy := (0, 1)

/-- `const UPPER_LEFT: Xy = (1, 0)`. -/
def UPPER_LEFT : Xy := (1, 0)

/-- `const UPPER_RIGHT: Xy = (1, 1)`. -/
def UPPER_RIGHT : Xy := (1, 1)

/-- `let pattern = [BOTTOM_LEFT, BOTTOM_RIGHT, UPPER_LEFT, UPPER_RIGHT]`. -/
def pattern : List Xy := [BOTTOM_LEFT, BOTTOM_RIGHT, UPPER_LEFT, UPPER_RIGHT]

/-- The RGB triplet the loop body of `generate_worlddata` writes into the
`i`-th 3-byte chunk: `pixel[0] = x`, `pixel[1] = y`, `pixel[2] = 0`, where
`(x, y)` is the `i`-th element of `pattern.iter().cycle()`, i.e.
`pat[i % pat.len()]`. -/
def worldPixel (pat : List Xy) (i : Nat) : List Nat :=
  [(pat.getD (i % pat.length) (0, 0)).1, (pat.getD (i % pat.length) (0, 0)).2, 0]

/-- The concatenation of the RGB triplets for pixels `i, i+1, ..., i+n-1`:
the state of the buffer after the `for` loop of `generate_worlddata` has
visited `n` chunks starting at chunk index `i`. -/
def fillPixels (pat : List Xy) (i : Nat) : Nat → List Nat
  | 0 => []
  | n + 1 => worldPixel pat i ++ fillPixels pat (i + 1) n

/-- Embedding of `generate_worlddata`, generalized over the compile-time
constants `WORLD_WIDTH`, `WORLD_HEIGHT` and the `pattern` array (the source
fixes them; `worlddata` below is the source's instantiation).  The source
allocates `vec![0; 3 * width * height]`, splits it into 3-byte chunks and
zips the chunks with `pattern.iter().cycle()`, writing `(x, y, 0)` into each
chunk.  When the pattern is empty the cycled iterator is empty, the zip
yields nothing, and the zero-initialized buffer is returned unchanged;
otherwise the cycle is endless and every chunk is written. -/
def generate_worlddata (width height : Nat) (pat : List Xy) : List Nat :=
  if pat.length = 0 then
    List.replicate (BYTES_PER_RGB_VALUE * (width * height)) 0
  else
    fillPixels pat 0 (width * height)

/-- `let worlddata = generate_worlddata();` with the source's constants. -/
def worlddata : List Nat := generate_worlddata WORLD_WIDTH WORLD_HEIGHT pattern

/-! ## AtlasSource: `load_tilemap` -/

/-- Splitting a flat byte buffer into `n` consecutive rows of `rowLen`
bytes each (the row structure of an RGB image of width `rowLen / 3`). -/
def rowsOf (data : List Nat) (rowLen : Nat) : Nat → List (List Nat)
  | 0 => []
  | n + 1 => data.take rowLen :: rowsOf (data.drop rowLen) rowLen n

/-- Modelled from the spec: glium's `RawImage2d::from_raw_rgb_reversed`
(library code, not part of this repository), which `load_tilemap` calls to
vertically flip the decoded RGB plane before texture upload.  Per the
spec, the flip reverses the order of the image's pixel rows (each row
being `3 * width` bytes) while leaving each row's bytes unchanged. -/
def from_raw_rgb_reversed (data : List Nat) (width height : Nat) : List Nat :=
  ((rowsOf data (3 * width) height).reverse).flatten

/-- Embedding of the post-decode part of `load_tilemap` on a *valid*
image: the PNG entropy decoding is external library code, so a valid
N×M RGB image is represented directly by its decoded top-down rows
(`img.to_rgb8()` flattened row-major); `load_tilemap` then hands the flat
buffer and its dimensions to `from_raw_rgb_reversed`. -/
def decode_valid_image (rows : List (List Nat)) (width : Nat) : List Nat :=
  from_raw_rgb_reversed rows.flatten width rows.length

/-- The spec's `DecodeError`: the recoverable error value with which
`AtlasSource.decode` fails on bytes that are not a valid image of the
expected format. -/
inductive DecodeError where
  | decodeError
  deriving DecidableEq

/-- Every valid PNG stream begins with this fixed 8-byte signature. -/
def PNG_SIGNATURE : List Nat := [137, 80, 78, 71, 13, 10, 26, 10]

/-- Modelled from the spec: the format-validity gate of
`AtlasSource.decode`.  The actual decoding,
`image::load_from_memory_with_format(bytes, ImageFormat::Png)`, is `image`
crate library code not part of this repository; it returns a recoverable
`Result::Err` on bytes that are not a valid PNG.  Format validity is
modelled by the mandatory PNG signature check (the first gate of any PNG
parse); on success the remaining bytes stand for the decoded payload.
The function is pure: it has no side effect beyond producing its
result. -/
def decode_bytes (bytes : List Nat) : Except DecodeError (List Nat) :=
  if bytes.take 8 = PNG_SIGNATURE then Except.ok (bytes.drop 8)
  else Except.error DecodeError.decodeError

/-! ## QuadGeometry: `gen_vertices` and `quad_indices` -/

/-- `struct Vertex { position: [f32; 2] }`; both coordinates the program
ever stores are dyadic rationals exactly representable in `f32`, so the
position is modelled as a pair of rationals. -/
structure Vertex where
  position : ℚ × ℚ
  deriving DecidableEq

/-- `const MAP_WIDTH: f32 = 1.0`. -/
def MAP_WIDTH : ℚ := 1

/-- `const MAP_HEIGHT: f32 = 1.0`. -/
def MAP_HEIGHT : ℚ := 1

/-- `const MAP_X: f32 = -0.5`. -/
def MAP_X : ℚ := -(1 / 2)

/-- `const MAP_Y: f32 = -0.5`. -/
def MAP_Y : ℚ := -(1 / 2)

/-- Embedding of `gen_vertices`: the four quad corners in the source's
order (0 top-left, 1 top-right, 2 bottom-right, 3 bottom-left); all sums
are exact in `f32` so `ℚ` arithmetic is faithful. -/
def gen_vertices : List Vertex :=
  [⟨(MAP_X, MAP_Y + MAP_HEIGHT)⟩,
   ⟨(MAP_X + MAP_WIDTH, MAP_Y + MAP_HEIGHT)⟩,
   ⟨(MAP_X + MAP_WIDTH, MAP_Y)⟩,
   ⟨(MAP_X, MAP_Y)⟩]

/-- Default vertex used with `List.getD` when indexing `gen_vertices`. -/
def dummyVertex : Vertex := ⟨(0, 0)⟩

/-- The index buffer contents passed to `IndexBuffer::<u8>::new`:
`[3, 1, 2, 3, 0, 1]` (triangles `(3,1,2)` then `(3,0,1)`). -/
def quad_indices : List Nat := [3, 1, 2, 3, 0, 1]

/-! ## Per-frame draw configuration -/

/-- glium's `MagnifySamplerFilter`. -/
inductive MagnifySamplerFilter where
  | Nearest
  | Linear
  deriving DecidableEq

/-- glium's `MinifySamplerFilter`. -/
inductive MinifySamplerFilter where
  | Nearest
  | Linear
  | NearestMipmapNearest
  | LinearMipmapNearest
  | NearestMipmapLinear
  | LinearMipmapLinear
  deriving DecidableEq

/-- A texture sampler's filter configuration: the part of glium's
`Sampler` the program sets via `magnify_filter` / `minify_filter`. -/
structure Sampler where
  magnify_filter : MagnifySamplerFilter
  minify_filter : MinifySamplerFilter
  deriving DecidableEq

/-- glium's `draw_parameters::ProvokingVertex` (the OpenGL default is
`LastVertex`). -/
inductive ProvokingVertex where
  | FirstVertex
  | LastVertex
  deriving DecidableEq

/-- The field of glium's `DrawParameters` the program configures. -/
structure DrawParameters where
  provoking_vertex : ProvokingVertex
  deriving DecidableEq

/-- Everything the event-loop closure computes for one frame's draw call. -/
structure FrameDraw where
  zoom : ℚ
  draw_params : DrawParameters
  tilemap_sampler : Sampler
  worldmap_sampler : Sampler
  deriving DecidableEq

/-- Embedding of the body of the per-frame event-loop closure.  The
elapsed wall-clock seconds since `start` (a positive real measured by
`Instant`) are abstracted as a rational `elapsed`; the `f32` expression
`1.0 / elapsed.powi(2)` is modelled exactly as `1 / elapsed ^ 2`.  The
draw parameters set `provoking_vertex: ProvokingVertex::FirstVertex`; the
tilemap sampler uses `Nearest` magnification and `LinearMipmapLinear`
minification; the worldmap sampler uses `Nearest` for both. -/
def frame (elapsed : ℚ) : FrameDraw :=
  { zoom := 1 / elapsed ^ 2
    draw_params := { provoking_vertex := ProvokingVertex.FirstVertex }
    tilemap_sampler :=
      { magnify_filter := MagnifySamplerFilter.Nearest
        minify_filter := MinifySamplerFilter.LinearMipmapLinear }
    worldmap_sampler :=
      { magnify_filter := MagnifySamplerFilter.Nearest
        minify_filter := MinifySamplerFilter.Nearest } }

/-! ## Helper lemmas -/

lemma worldPixel_length (pat : List Xy) (i : Nat) : (worldPixel pat i).length = 3 :=
  rfl

lemma fillPixels_length (pat : List Xy) :
    ∀ n i, (fillPixels pat i n).length = 3 * n := by
  intro n
  induction n with
  | zero => intro i; rfl
  | succ m ih =>
    intro i
    simp only [fillPixels, List.length_append, worldPixel_length, ih]
    omega

lemma fillPixels_getD (pat : List Xy) (d : Nat) :
    ∀ n i k j, k < n → j < 3 →
      (fillPixels pat i n).getD (3 * k + j) d = (worldPixel pat (i + k)).getD j d := by
  intro n
  induction n with
  | zero => intro i k j hk _; omega
  | succ m ih =>
    intro i k j hk hj
    cases k with
    | zero =>
      simp only [fillPixels, Nat.mul_zero, Nat.zero_add, Nat.add_zero]
      rw [List.getD_append _ _ _ _ (by rw [worldPixel_length]; omega)]
    | succ k' =>
      simp only [fillPixels]
      rw [List.getD_append_right _ _ _ _ (by rw [worldPixel_length]; omega)]
      have hidx : 3 * (k' + 1) + j - (worldPixel pat i).length = 3 * k' + j := by
        rw [worldPixel_length]; omega
      rw [hidx, ih (i + 1) k' j (by omega) hj]
      have hsum : i + 1 + k' = i + (k' + 1) := by omega
      rw [hsum]

lemma rowsOf_flatten (rowLen : Nat) :
    ∀ rows : List (List Nat), (∀ r ∈ rows, r.length = rowLen) →
      rowsOf rows.flatten rowLen rows.length = rows := by
  intro rows
  induction rows with
  | nil => intro _; rfl
  | cons r rs ih =>
    intro h
    have hr : r.length = rowLen := h r (List.mem_cons_self r rs)
    simp only [List.flatten_cons, List.length_cons, rowsOf]
    rw [← hr, List.take_left, List.drop_left, hr,
      ih (fun x hx => h x (List.mem_cons_of_mem r hx))]

lemma pattern_getD_le (r : Nat) (h : r < 4) :
    (pattern.getD r (0, 0)).1 ≤ 1 ∧ (pattern.getD r (0, 0)).2 ≤ 1 := by
  interval_cases r <;> decide

/-! ## Claims -/

/-- Claim C1: for every `(width, height, pattern)` with the pattern
non-empty, `generate_worlddata` produces a buffer of exactly
`width * height * 3` bytes, and for every pixel index `i < width * height`
the bytes at offsets `3*i` and `3*i + 1` are exactly the pair
`pattern[i % pattern.len()]`. -/
theorem generate_worlddata_spec (width height : Nat) (pat : List Xy)
    (hpat : pat ≠ []) :
    (generate_worlddata width height pat).length = width * height * 3 ∧
    ∀ i, i < width * height →
      (generate_worlddata width height pat).getD (3 * i) 0
          = (pat.getD (i % pat.length) (0, 0)).1 ∧
      (generate_worlddata width height pat).getD (3 * i + 1) 0
          = (pat.getD (i % pat.length) (0, 0)).2 := by
  have hlen : ¬pat.length = 0 := fun h => hpat (List.length_eq_zero.mp h)
  have hgen : generate_worlddata width height pat
      = fillPixels pat 0 (width * height) := by
    simp [generate_worlddata, hlen]
  constructor
  · rw [hgen, fillPixels_length]; ring
  · intro i hi
    rw [hgen]
    constructor
    · have h := fillPixels_getD pat 0 (width * height) 0 i 0 hi (by omega)
      simpa [worldPixel] using h
    · have h := fillPixels_getD pat 0 (width * height) 0 i 1 hi (by omega)
      simpa [worldPixel] using h

/-- Witness for C1 at `width = 2`, `height = 1`,
`pattern = [(0, 0), (0, 1)]`, together with the concrete buffer. -/
theorem generate_worlddata_spec_witness :
    (([(0, 0), (0, 1)] : List Xy) ≠ [] ∧
      ((generate_worlddata 2 1 [(0, 0), (0, 1)]).length = 2 * 1 * 3 ∧
        ∀ i, i < 2 * 1 →
          (generate_worlddata 2 1 [(0, 0), (0, 1)]).getD (3 * i) 0
              = (([(0, 0), (0, 1)] : List Xy).getD
                  (i % ([(0, 0), (0, 1)] : List Xy).length) (0, 0)).1 ∧
          (generate_worlddata 2 1 [(0, 0), (0, 1)]).getD (3 * i + 1) 0
              = (([(0, 0), (0, 1)] : List Xy).getD
                  (i % ([(0, 0), (0, 1)] : List Xy).length) (0, 0)).2)) ∧
    generate_worlddata 2 1 [(0, 0), (0, 1)] = [0, 0, 0, 0, 1, 0] :=
  ⟨⟨by decide, generate_worlddata_spec 2 1 [(0, 0), (0, 1)] (by decide)⟩,
    by decide⟩

/-- Claim C2: the decode stage applied to a valid N×M RGB image (its
decoded top-down rows, each of `3 * width` bytes) produces an output
whose row order is the exact reverse of the input's row order, each
row's bytes otherwise unchanged. -/
theorem decode_valid_image_flips (rows : List (List Nat)) (width : Nat)
    (h : ∀ r ∈ rows, r.length = 3 * width) :
    decode_valid_image rows width = rows.reverse.flatten := by
  unfold decode_valid_image from_raw_rgb_reversed
  rw [rowsOf_flatten (3 * width) rows h]

/-- Witness for C2 on a concrete 1×2 image. -/
theorem decode_valid_image_flips_witness :
    (∀ r ∈ ([[10, 20, 30], [40, 50, 60]] : List (List Nat)), r.length = 3 * 1) ∧
    decode_valid_image [[10, 20, 30], [40, 50, 60]] 1
        = ([[10, 20, 30], [40, 50, 60]] : List (List Nat)).reverse.flatten ∧
    decode_valid_image [[10, 20, 30], [40, 50, 60]] 1 = [40, 50, 60, 10, 20, 30] :=
  ⟨by decide, decode_valid_image_flips [[10, 20, 30], [40, 50, 60]] 1 (by decide),
    by decide⟩

/-- Claim C7: on a byte buffer that is not a valid image of the expected
format (it fails the PNG signature gate), decode fails with the
recoverable error value `DecodeError`; `decode_bytes` is a pure function,
so producing this value is its only effect. -/
theorem decode_bytes_error (bytes : List Nat)
    (h : bytes.take 8 ≠ PNG_SIGNATURE) :
    decode_bytes bytes = Except.error DecodeError.decodeError := by
  simp [decode_bytes, h]

/-- Witness for C7 on a concrete corrupted buffer. -/
theorem decode_bytes_error_witness :
    ([0, 1, 2] : List Nat).take 8 ≠ PNG_SIGNATURE ∧
    decode_bytes [0, 1, 2] = Except.error DecodeError.decodeError :=
  ⟨by decide, decode_bytes_error [0, 1, 2] (by decide)⟩

/-- Claim C3: the index buffer is exactly the two triangles `(3, 1, 2)`
and `(3, 0, 1)`, in that order, so vertex 3 — whose position is
`(-0.5, -0.5)`, the bottom-left corner — is the first vertex of both
triangles. -/
theorem quad_indices_spec :
    quad_indices = [3, 1, 2] ++ [3, 0, 1] ∧
    quad_indices.getD 0 0 = 3 ∧
    quad_indices.getD 3 0 = 3 ∧
    (gen_vertices.getD 3 dummyVertex).position = (-(1 / 2 : ℚ), -(1 / 2 : ℚ)) := by
  refine ⟨rfl, rfl, rfl, ?_⟩
  norm_num [gen_vertices, MAP_X, MAP_Y, List.getD]

/-- Claim C4: in every frame's draw call, the world-index sampler uses
nearest-neighbor filtering for both magnification and minification,
while the tilemap atlas sampler uses nearest-neighbor magnification and
linear mip-mapped (`LinearMipmapLinear`) minification. -/
theorem frame_sampler_filters (elapsed : ℚ) :
    (frame elapsed).worldmap_sampler.magnify_filter = MagnifySamplerFilter.Nearest ∧
    (frame elapsed).worldmap_sampler.minify_filter = MinifySamplerFilter.Nearest ∧
    (frame elapsed).tilemap_sampler.magnify_filter = MagnifySamplerFilter.Nearest ∧
    (frame elapsed).tilemap_sampler.minify_filter
        = MinifySamplerFilter.LinearMipmapLinear :=
  ⟨rfl, rfl, rfl, rfl⟩

/-- Claim C5: every frame's draw parameters select the first-vertex
provoking-vertex convention, and the first vertex of each of the two
triangles in the index buffer is vertex 3, whose position is the
bottom-left corner `(MAP_X, MAP_Y)`. -/
theorem frame_provoking_vertex (elapsed : ℚ) :
    (frame elapsed).draw_params.provoking_vertex = ProvokingVertex.FirstVertex ∧
    quad_indices.getD 0 0 = 3 ∧
    quad_indices.getD 3 0 = 3 ∧
    (gen_vertices.getD 3 dummyVertex).position = (MAP_X, MAP_Y) :=
  ⟨rfl, rfl, rfl, rfl⟩

/-- Claim C6: every RGB triplet of the generated world raster is a valid
tile index for the 2×2 atlas grid: the first two channels are each 0 or
1 and the third channel is always 0. -/
theorem worlddata_triplet_valid (i : Nat)
    (hi : i < WORLD_WIDTH * WORLD_HEIGHT) :
    worlddata.getD (3 * i) 0 ≤ 1 ∧
    worlddata.getD (3 * i + 1) 0 ≤ 1 ∧
    worlddata.getD (3 * i + 2) 0 = 0 := by
  have hw : worlddata = fillPixels pattern 0 (WORLD_WIDTH * WORLD_HEIGHT) := rfl
  have h0 := fillPixels_getD pattern 0 (WORLD_WIDTH * WORLD_HEIGHT) 0 i 0 hi (by omega)
  have h1 := fillPixels_getD pattern 0 (WORLD_WIDTH * WORLD_HEIGHT) 0 i 1 hi (by omega)
  have h2 := fillPixels_getD pattern 0 (WORLD_WIDTH * WORLD_HEIGHT) 0 i 2 hi (by omega)
  simp only [Nat.add_zero, Nat.zero_add] at h0 h1 h2
  have hmod : i % pattern.length < 4 := by
    have hp : pattern.length = 4 := rfl
    rw [hp]
    omega
  obtain ⟨ha, hb⟩ := pattern_getD_le (i % pattern.length) hmod
  rw [hw]
  refine ⟨?_, ?_, ?_⟩
  · rw [h0]; simpa [worldPixel] using ha
  · rw [h1]; simpa [worldPixel] using hb
  · rw [h2]; simp [worldPixel]

/-- Witness for C6 at pixel index 0. -/
theorem worlddata_triplet_valid_witness :
    0 < WORLD_WIDTH * WORLD_HEIGHT ∧
    (worlddata.getD (3 * 0) 0 ≤ 1 ∧
      worlddata.getD (3 * 0 + 1) 0 ≤ 1 ∧
      worlddata.getD (3 * 0 + 2) 0 = 0) :=
  ⟨by decide, worlddata_triplet_valid 0 (by decide)⟩

/-- Claim C8: the per-frame zoom scalar equals `1 / elapsed²`, and for
any two elapsed times `0 < e1 < e2` the zoom at `e2` is strictly smaller
than at `e1` — the formula applies no reset or clamping. -/
theorem frame_zoom_antitone :
    (∀ e : ℚ, (frame e).zoom = 1 / e ^ 2) ∧
    ∀ e1 e2 : ℚ, 0 < e1 → e1 < e2 → (frame e2).zoom < (frame e1).zoom := by
  refine ⟨fun e => rfl, ?_⟩
  intro e1 e2 h1 h12
  show 1 / e2 ^ 2 < 1 / e1 ^ 2
  have hsq : e1 ^ 2 < e2 ^ 2 := by nlinarith
  exact one_div_lt_one_div_of_lt (pow_pos h1 2) hsq

/-- Witness for C8 at `e1 = 1`, `e2 = 2`. -/
theorem frame_zoom_antitone_witness :
    (frame 1).zoom = 1 / (1 : ℚ) ^ 2 ∧
    (0 : ℚ) < 1 ∧ (1 : ℚ) < 2 ∧ (frame 2).zoom < (frame 1).zoom :=
  ⟨frame_zoom_antitone.1 1, by norm_num, by norm_num,
    frame_zoom_antitone.2 1 2 (by norm_num) (by norm_num)⟩

/-- Claim C9: the quad's four vertex positions are (0) top-left
`(-0.5, 0.5)`, (1) top-right `(0.5, 0.5)`, (2) bottom-right
`(0.5, -0.5)`, (3) bottom-left `(-0.5, -0.5)` — offset `(-0.5, -0.5)`
plus size `1.0 × 1.0`, spanning exactly `[-0.5, 0.5]` on both axes. -/
theorem gen_vertices_spec :
    gen_vertices.length = 4 ∧
    (gen_vertices.getD 0 dummyVertex).position = (-(1 / 2 : ℚ), (1 / 2 : ℚ)) ∧
    (gen_vertices.getD 1 dummyVertex).position = ((1 / 2 : ℚ), (1 / 2 : ℚ)) ∧
    (gen_vertices.getD 2 dummyVertex).position = ((1 / 2 : ℚ), -(1 / 2 : ℚ)) ∧
    (gen_vertices.getD 3 dummyVertex).position = (-(1 / 2 : ℚ), -(1 / 2 : ℚ)) := by
  refine ⟨rfl, ?_, ?_, ?_, ?_⟩ <;>
    norm_num [gen_vertices, MAP_X, MAP_Y, MAP_WIDTH, MAP_HEIGHT, List.getD]

/-- Claim C10: `generate_worlddata` is deterministic — it is a pure
function of its inputs, so two calls with identical inputs produce
byte-identical buffers. -/
theorem generate_worlddata_deterministic (w1 w2 h1 h2 : Nat)
    (p1 p2 : List Xy) (hw : w1 = w2) (hh : h1 = h2) (hp : p1 = p2) :
    generate_worlddata w1 h1 p1 = generate_worlddata w2 h2 p2 := by
  rw [hw, hh, hp]

/-- Witness for C10: two calls with the same concrete inputs. -/
theorem generate_worlddata_deterministic_witness :
    (2 : Nat) = 2 ∧ (1 : Nat) = 1 ∧ ([(0, 0)] : List Xy) = [(0, 0)] ∧
    generate_worlddata 2 1 [(0, 0)] = generate_worlddata 2 1 [(0, 0)] :=
  ⟨rfl, rfl, rfl,
    generate_worlddata_deterministic 2 2 1 1 [(0, 0)] [(0, 0)] rfl rfl rfl⟩

end OpenglTilemap
